import Mathlib

/-!
Verification model of the OMNIA Control Protocol real-time demo (src/run.py).

The program is a tkinter client: `enable_click` connects a TCP socket, sends a
fixed enable command, displays the first reply, then loops
`data = s.recv(1024); parse_xml(data)` inside a single try/except whose handler
writes the exception into the status text box. `parse_xml` parses the received
bytes as one XML document, locates the first SetRealTimeInfo descendant and
writes six fields into six text boxes.

Modelling conventions:
- A text box holds the last value inserted into it: either a Python str or the
  Python float produced by round(float(_), 1). Floats are modelled as exact
  rationals; `round(x, 1)` is modelled as round-half-to-even at one decimal,
  which agrees with CPython on the decimal literals exercised here.
- Bytes are modelled as `String` (the protocol traffic is ASCII).
- A raised Python exception is modelled as an `Outcome.exn`/`Option String`
  carrying the exception text; messages are representative of CPython's.
-/

/-- The value held by a tkinter Text widget: the last object inserted,
either a str or the float inserted for VO2/VCO2/VE. -/
inductive Content where
  | str (s : String)
  | num (q : ℚ)
deriving DecidableEq, Repr

/-- The mutable widget state of run.py that `parse_xml` and `enable_click`
write to: tb_time, tb_vo2, tb_vco2, tb_phase, tb_ve, tb_hr, tb_status. -/
structure Boxes where
  time : Content
  vo2 : Content
  vco2 : Content
  phase : Content
  ve : Content
  hr : Content
  status : Content
deriving DecidableEq, Repr

/-- Initial widget state: the six data boxes are empty Text widgets and
tb_status holds the startup text inserted at line 167 of run.py. -/
def boxes0 : Boxes :=
  { time := Content.str "", vo2 := Content.str "", vco2 := Content.str "",
    phase := Content.str "", ve := Content.str "", hr := Content.str "",
    status := Content.str "Real-time information not enabled" }

mutual
/-- An ElementTree element: tag, text (the text between the open tag and the
first child, None when absent) and its child elements.  Tail text is never
read by run.py and is not retained.  Children are a dedicated list type so
that traversals are plain structural recursions. -/
inductive Xml where
  | elem (tag : String) (text : Option String) (children : XmlList)
/-- A list of sibling elements. -/
inductive XmlList where
  | nil
  | cons (head : Xml) (tail : XmlList)
end

/-- Child lists written with ordinary list literals. -/
def XmlList.ofList : List Xml → XmlList
  | [] => XmlList.nil
  | x :: r => XmlList.cons x (XmlList.ofList r)

/-- Tag of an element. -/
def Xml.tag : Xml → String
  | .elem t _ _ => t

/-- Child elements of an element. -/
def Xml.children : Xml → XmlList
  | .elem _ _ cs => cs

/-- Element text with ElementTree's findtext convention: an element that was
found but has no text yields the empty string. -/
def Xml.textOrEmpty : Xml → String
  | .elem _ (some t) _ => t
  | .elem _ none _ => ""

/-- First direct child with the given tag. -/
def findChildWithTag (tag : String) : XmlList → Option Xml
  | .nil => none
  | .cons c r => if c.tag = tag then some c else findChildWithTag tag r

/-- Model of `element.findtext(tag)`: the text of the first direct child whose
tag matches, `none` when no such child exists. -/
def findtext (x : Xml) (tag : String) : Option String :=
  (findChildWithTag tag x.children).map Xml.textOrEmpty

/-- Depth-first, document-order search for the first element with the given
tag, descending into children before moving to siblings. -/
def findDesc (tag : String) : XmlList → Option Xml
  | .nil => none
  | .cons (Xml.elem t tx cs) r =>
    if t = tag then some (Xml.elem t tx cs)
    else
      match findDesc tag cs with
      | some e => some e
      | none => findDesc tag r

/-- Model of `et_root.find(".//SetRealTimeInfo")` (run.py line 47): first
SetRealTimeInfo element among the strict descendants of the root, in document
order.  ElementTree's `.//` axis does not match the context node itself. -/
def find_SetRealTimeInfo (x : Xml) : Option Xml :=
  findDesc "SetRealTimeInfo" x.children

/-- Membership in a child list. -/
inductive XmlMem (c : Xml) : XmlList → Prop where
  | head (r : XmlList) : XmlMem c (XmlList.cons c r)
  | tail (d : Xml) (r : XmlList) : XmlMem c r → XmlMem c (XmlList.cons d r)

/-- The tag occurs somewhere in the tree, root included. -/
inductive OccursIn (tag : String) : Xml → Prop where
  | here (t : String) (tx : Option String) (cs : XmlList) :
      t = tag → OccursIn tag (Xml.elem t tx cs)
  | via_child (t : String) (tx : Option String) (cs : XmlList) (c : Xml) :
      XmlMem c cs → OccursIn tag c → OccursIn tag (Xml.elem t tx cs)

/-- Numeric value of a list of decimal digit characters. -/
def digitsToNat (l : List Char) : Nat :=
  l.foldl (fun a c => 10 * a + (c.toNat - 48)) 0

/-- Model of Python `float()` on the decimal literals the device protocol
carries: optional sign, digits, optional fractional part (exponents and
special values are outside the modelled protocol).  Returns `none` exactly
when CPython's float() raises ValueError on such input, e.g. on "abc". -/
def pyFloat (s : String) : Option ℚ :=
  let l := s.data
  let sgn : Bool × List Char :=
    match l with
    | '-' :: r => (true, r)
    | '+' :: r => (false, r)
    | _ => (false, l)
  let ip := sgn.2.takeWhile (fun c => c != '.')
  let rest := sgn.2.drop ip.length
  match rest with
  | [] =>
    if ip.isEmpty || !ip.all Char.isDigit then none
    else
      let v : ℤ := (digitsToNat ip : ℤ)
      some (mkRat (if sgn.1 then -v else v) 1)
  | _ :: fp =>
    if (ip.isEmpty && fp.isEmpty) || !ip.all Char.isDigit || !fp.all Char.isDigit then none
    else
      let v : ℤ := (digitsToNat ip * 10 ^ fp.length + digitsToNat fp : ℤ)
      some (mkRat (if sgn.1 then -v else v) (10 ^ fp.length))

/-- Round half to even of ten times the rational: the integer 10*q rounds to,
with ties going to the even integer, computed on the numerator and (positive)
denominator.  `f` is the floor of 10*q and `rem2` is 2*den*(10*q - f), so the
half-way tie is exactly `rem2 = den`. -/
def roundTenths (q : ℚ) : ℤ :=
  let n := 10 * q.num
  let d : ℤ := (q.den : ℤ)
  let f := Int.fdiv n d
  let rem2 := 2 * (n - f * d)
  if rem2 < d then f
  else if d < rem2 then f + 1
  else if f % 2 = 0 then f else f + 1

/-- Model of `round(x, 1)` on the decoded value: the multiple of one tenth
nearest to x, ties to even, the rounding CPython's round() performs. -/
def pyRound1 (q : ℚ) : ℚ := mkRat (roundTenths q) 10

/-- Message of the ValueError raised by float() on a non-numeric string. -/
def floatErrMsg (s : String) : String :=
  "could not convert string to float: " ++ s

/-- Message of the TypeError raised by float(None) when findtext found no
matching child element. -/
def noneFloatMsg : String := "float argument must be a string or a real number"

/-- Evaluation of `float(findtext_result)`: TypeError on a missing field,
ValueError on unparseable text, otherwise the value. -/
def floatOf : Option String → Except String ℚ
  | none => Except.error noneFloatMsg
  | some s =>
    match pyFloat s with
    | some q => Except.ok q
    | none => Except.error (floatErrMsg s)

/-- A str argument inserts itself; tkinter renders a Python None argument via
str(), giving the text "None". -/
def insertedText : Option String → Content
  | some s => Content.str s
  | none => Content.str "None"

/-- How one call to `parse_xml` ended: no SetRealTimeInfo found (the function
returns without touching any box), all six fields written, or a Python
exception raised partway through (carrying its message). -/
inductive Outcome where
  | unrecognized
  | decoded
  | exn (e : String)
deriving DecidableEq, Repr

/-- Model of `parse_xml` (run.py lines 29-79) acting on the widget state.
It mirrors the source statement by statement: for each field the code runs
findtext, then `delete` (clearing the box), then `insert`; for VO2, VCO2 and
VE the inserted value is `round(float(text), 1)`, whose evaluation can raise
after the delete has already emptied the box.  An exception aborts the
remaining statements. -/
def parse_xml (b : Boxes) (x : Xml) : Boxes × Outcome :=
  match find_SetRealTimeInfo x with
  | none => (b, Outcome.unrecognized)
  | some srti =>
    let b1 := { b with time := insertedText (findtext srti "TimeStamp") }
    let b2 := { b1 with vo2 := Content.str "" }
    match floatOf (findtext srti "VO2") with
    | Except.error e => (b2, Outcome.exn e)
    | Except.ok q1 =>
      let b3 := { b2 with vo2 := Content.num (pyRound1 q1) }
      let b4 := { b3 with vco2 := Content.str "" }
      match floatOf (findtext srti "VCO2") with
      | Except.error e => (b4, Outcome.exn e)
      | Except.ok q2 =>
        let b5 := { b4 with vco2 := Content.num (pyRound1 q2) }
        let b6 := { b5 with phase := insertedText (findtext srti "PHASE") }
        let b7 := { b6 with ve := Content.str "" }
        match floatOf (findtext srti "VE") with
        | Except.error e => (b7, Outcome.exn e)
        | Except.ok q3 =>
          let b8 := { b7 with ve := Content.num (pyRound1 q3) }
          let b9 := { b8 with hr := insertedText (findtext srti "HR") }
          (b9, Outcome.decoded)

/-- A leaf element with text, as in the device's field elements. -/
def leaf (tag txt : String) : Xml := Xml.elem tag (some txt) XmlList.nil

/-- The SetRealTimeInfo element with its six child fields. -/
def srtiElem (ts v1 v2 ph v3 hr : String) : Xml :=
  Xml.elem "SetRealTimeInfo" none
    (XmlList.ofList
      [leaf "TimeStamp" ts, leaf "VO2" v1, leaf "VCO2" v2,
       leaf "PHASE" ph, leaf "VE" v3, leaf "HR" hr])

/-- A full telemetry document in the shape OMNIA pushes (the spec's example):
OmniaXB > RealTimeData > SetRealTimeInfo > six fields. -/
def srtiDoc (ts v1 v2 ph v3 hr : String) : Xml :=
  Xml.elem "OmniaXB" none
    (XmlList.ofList
      [Xml.elem "RealTimeData" none (XmlList.ofList [srtiElem ts v1 v2 ph v3 hr])])

/-- One entry of the parser's stack of currently open elements: tag name,
text, and the children collected so far (in reverse). -/
def OpenElem : Type := String × Option String × List Xml

/-- Parser engine behind the `ET.fromstring` model: a tag-level scan of the
byte list maintaining the stack of open elements.  It returns the first
complete top-level element together with the unconsumed remainder, or the
message of the ParseError raised on malformed or truncated input.  `fuel`
strictly exceeds the input length and every step consumes at least one
character, so it never runs out on the wrapper's call.  Error messages are
representative of expat's. -/
def parseLoop : Nat → List OpenElem → List Char → Except String (Xml × List Char)
  | 0, _, _ => Except.error "unclosed token"
  | fuel + 1, stack, l =>
    match l with
    | '<' :: '/' :: r =>
      let cnm := r.takeWhile (fun c => c != '>')
      match r.drop cnm.length with
      | '>' :: rest =>
        match stack with
        | [] => Except.error "syntax error"
        | (nm, tx, kids) :: stk =>
          if String.mk cnm = nm then
            let el := Xml.elem nm tx (XmlList.ofList kids.reverse)
            match stk with
            | [] => Except.ok (el, rest)
            | (nm2, tx2, kids2) :: stk2 =>
              let tl := rest.takeWhile (fun c => c != '<')
              parseLoop fuel ((nm2, tx2, el :: kids2) :: stk2) (rest.drop tl.length)
          else Except.error "mismatched tag"
      | _ => Except.error "unclosed token"
    | '<' :: r =>
      let nm := r.takeWhile (fun c => c != '>' && c != '/')
      match r.drop nm.length with
      | '/' :: '>' :: rest =>
        if nm.isEmpty then Except.error "malformed tag"
        else
          let el := Xml.elem (String.mk nm) none XmlList.nil
          match stack with
          | [] => Except.ok (el, rest)
          | (nm2, tx2, kids2) :: stk2 =>
            let tl := rest.takeWhile (fun c => c != '<')
            parseLoop fuel ((nm2, tx2, el :: kids2) :: stk2) (rest.drop tl.length)
      | '>' :: rest =>
        if nm.isEmpty then Except.error "malformed tag"
        else
          let txt := rest.takeWhile (fun c => c != '<')
          parseLoop fuel
            ((String.mk nm, (if txt.isEmpty then none else some (String.mk txt)), []) :: stack)
            (rest.drop txt.length)
      | _ => Except.error "unclosed token"
    | [] => Except.error "no element found"
    | _ => Except.error "syntax error"

/-- Model of `ET.fromstring` (run.py line 44) on the received bytes: parses
one complete XML document and raises (returns an error message) on empty
input, truncated documents, mismatched tags, or trailing bytes after the root
element.  Only the XML subset the OCP protocol uses is recognised (no
attributes, declarations or comments). -/
def fromstring (s : String) : Except String Xml :=
  let l := s.data.dropWhile Char.isWhitespace
  if l.isEmpty then Except.error "no element found"
  else
    match parseLoop (l.length + 1) [] l with
    | Except.error e => Except.error e
    | Except.ok (x, rest) =>
      if (rest.dropWhile Char.isWhitespace).isEmpty then Except.ok x
      else Except.error "junk after document element"

/-- What one `s.recv(1024)` call delivers: a chunk of bytes (the empty chunk
is what recv returns when the peer closes the connection cleanly) or a raised
socket error. -/
inductive SockEv where
  | bytes (s : String)
  | err (e : String)
deriving DecidableEq, Repr

/-- One iteration of the receive loop body (run.py lines 124-126):
`data = s.recv(1024); parse_xml(data)`.  Yields the widget state afterwards
and the message of the exception this iteration raised, if any: a socket
error from recv, a ParseError from fromstring, or a conversion error escaping
parse_xml. -/
def recvStep (b : Boxes) : SockEv → Boxes × Option String
  | SockEv.err e => (b, some e)
  | SockEv.bytes s =>
    match fromstring s with
    | Except.error e => (b, some e)
    | Except.ok x =>
      match parse_xml b x with
      | (b2, Outcome.exn e) => (b2, some e)
      | (b2, Outcome.unrecognized) => (b2, none)
      | (b2, Outcome.decoded) => (b2, none)

/-- The `while True` receive loop (run.py lines 124-126) driven by a trace of
recv results.  It runs until an iteration raises, which ends the loop and
propagates the exception message to `enable_click`'s handler; an exhausted
trace means the loop is still blocked in recv.  Returns the final widget
state and the exception that ended the loop, if one did. -/
def runLoop : Boxes → List SockEv → Boxes × Option String
  | b, [] => (b, none)
  | b, ev :: evs =>
    match recvStep b ev with
    | (b2, some e) => (b2, some e)
    | (b2, none) => runLoop b2 evs

/-- The network interactions one `enable_click` call can encounter, in program
order: an exception from `s.connect`, one from `s.sendall`, the first
`s.recv(1024)` (the handshake acknowledgement), then the receive loop's recv
results. -/
structure NetTrace where
  connectErr : Option String
  sendErr : Option String
  firstRecv : SockEv
  events : List SockEv

/-- The command string built at run.py line 105. -/
def message : String :=
  "<OmniaXB><System><EnableRealTimeInformation><Enabled>1</Enabled></EnableRealTimeInformation></System></OmniaXB>"

/-- UTF-8 encoding of one character (standard 1-4 byte scheme). -/
def utf8Bytes (c : Char) : List Nat :=
  let n := c.toNat
  if n < 128 then [n]
  else if n < 2048 then [192 + n / 64, 128 + n % 64]
  else if n < 65536 then [224 + n / 4096, 128 + (n / 64) % 64, 128 + n % 64]
  else [240 + n / 262144, 128 + (n / 4096) % 64, 128 + (n / 64) % 64, 128 + n % 64]

/-- UTF-8 encoding of a string as a byte list, modelling `str.encode('utf-8')`. -/
def encode_utf8 (s : String) : List Nat := s.data.flatMap utf8Bytes

/-- The byte payload built at run.py line 108: `message.encode('utf-8')`.
A constant; building it takes no input and cannot fail. -/
def byte_message : List Nat := encode_utf8 message

/-- Model of `enable_click` (run.py lines 82-131) from the socket block on:
the whole interaction sits in one try/except, so the result of the body is a
widget state plus the exception that escaped it, if any, and the handler
(lines 128-131) writes that exception into the status box.  On a successful
connect and send, the first recv's bytes are displayed in the status box
(lines 119-121) and the receive loop runs.  Button state and the entry
widgets are outside the modelled state. -/
def enable_click (b : Boxes) (t : NetTrace) : Boxes :=
  let body : Boxes × Option String :=
    match t.connectErr with
    | some e => (b, some e)
    | none =>
      match t.sendErr with
      | some e => (b, some e)
      | none =>
        match t.firstRecv with
        | SockEv.err e => (b, some e)
        | SockEv.bytes ack => runLoop { b with status := Content.str ack } t.events
  match body with
  | (b2, some e) => { b2 with status := Content.str e }
  | (b2, none) => b2

/-- A telemetry frame whose VO2 text is not numeric. -/
def frameBadVO2 : String :=
  "<OmniaXB><RealTimeData><SetRealTimeInfo><TimeStamp>00:00:01</TimeStamp><VO2>abc</VO2><VCO2>1.0</VCO2><PHASE>EX</PHASE><VE>2.0</VE><HR>99</HR></SetRealTimeInfo></RealTimeData></OmniaXB>"

/-- A fully valid telemetry frame. -/
def frameGood : String :=
  "<OmniaXB><RealTimeData><SetRealTimeInfo><TimeStamp>00:00:02</TimeStamp><VO2>12.5</VO2><VCO2>11.5</VCO2><PHASE>EX</PHASE><VE>30.0</VE><HR>100</HR></SetRealTimeInfo></RealTimeData></OmniaXB>"

set_option maxRecDepth 8192

/-- A loop that already ended with an exception is unaffected by whatever the
trace holds afterwards: no later event is processed. -/
theorem runLoop_fatal_append (post : List SockEv) :
    ∀ (pre : List SockEv) (b b2 : Boxes) (e : String),
      runLoop b pre = (b2, some e) → runLoop b (pre ++ post) = (b2, some e) := by
  intro pre
  induction pre with
  | nil =>
    intro b b2 e h
    simp [runLoop] at h
  | cons ev evs ih =>
    intro b b2 e h
    rw [List.cons_append]
    rw [runLoop] at h ⊢
    cases hr : recvStep b ev with
    | mk b3 r =>
      rw [hr] at h
      cases r with
      | some e2 => exact h
      | none => exact ih b3 b2 e h

/-- A loop that has processed a prefix without incident continues on the rest
of the trace from the state the prefix produced. -/
theorem runLoop_ok_append (post : List SockEv) :
    ∀ (pre : List SockEv) (b b2 : Boxes),
      runLoop b pre = (b2, none) → runLoop b (pre ++ post) = runLoop b2 post := by
  intro pre
  induction pre with
  | nil =>
    intro b b2 h
    simp [runLoop] at h
    rw [List.nil_append, h]
  | cons ev evs ih =>
    intro b b2 h
    rw [List.cons_append]
    rw [runLoop] at h ⊢
    cases hr : recvStep b ev with
    | mk b3 r =>
      rw [hr] at h
      cases r with
      | some e2 => exact absurd h (by simp)
      | none => exact ih b3 b2 h

/-- If the tag occurs nowhere in a child list's trees, the depth-first search
finds nothing. -/
theorem findDesc_none (tag : String) :
    (l : XmlList) → (∀ c, XmlMem c l → ¬ OccursIn tag c) → findDesc tag l = none
  | XmlList.nil, _ => rfl
  | XmlList.cons (Xml.elem t tx cs) r, h => by
    have ht : ¬ t = tag := fun he => h _ (XmlMem.head r) (OccursIn.here t tx cs he)
    have hcs : findDesc tag cs = none :=
      findDesc_none tag cs
        (fun c hm ho => h _ (XmlMem.head r) (OccursIn.via_child t tx cs c hm ho))
    have hr : findDesc tag r = none :=
      findDesc_none tag r (fun c hm ho => h c (XmlMem.tail _ r hm) ho)
    simp [findDesc, ht, hcs, hr]

theorem find_srtiDoc (ts v1 v2 ph v3 hr : String) :
    find_SetRealTimeInfo (srtiDoc ts v1 v2 ph v3 hr) = some (srtiElem ts v1 v2 ph v3 hr) := rfl

theorem floatOf_of_pyFloat (s : String) (q : ℚ) (h : pyFloat s = some q) :
    floatOf (some s) = Except.ok q := by
  rw [floatOf, h]

theorem floatOf_of_pyFloat_none (s : String) (h : pyFloat s = none) :
    floatOf (some s) = Except.error (floatErrMsg s) := by
  rw [floatOf, h]

theorem parse_xml_srtiDoc_ok (b : Boxes) (ts v1 v2 ph v3 hr : String) (q1 q2 q3 : ℚ)
    (h1 : pyFloat v1 = some q1) (h2 : pyFloat v2 = some q2) (h3 : pyFloat v3 = some q3) :
    parse_xml b (srtiDoc ts v1 v2 ph v3 hr) =
      ({ b with
          time := Content.str ts, vo2 := Content.num (pyRound1 q1),
          vco2 := Content.num (pyRound1 q2), phase := Content.str ph,
          ve := Content.num (pyRound1 q3), hr := Content.str hr }, Outcome.decoded) := by
  have f1 : floatOf (findtext (srtiElem ts v1 v2 ph v3 hr) "VO2") = Except.ok q1 := by
    show floatOf (some v1) = Except.ok q1
    exact floatOf_of_pyFloat v1 q1 h1
  have f2 : floatOf (findtext (srtiElem ts v1 v2 ph v3 hr) "VCO2") = Except.ok q2 := by
    show floatOf (some v2) = Except.ok q2
    exact floatOf_of_pyFloat v2 q2 h2
  have f3 : floatOf (findtext (srtiElem ts v1 v2 ph v3 hr) "VE") = Except.ok q3 := by
    show floatOf (some v3) = Except.ok q3
    exact floatOf_of_pyFloat v3 q3 h3
  rw [parse_xml, find_srtiDoc]
  dsimp only
  rw [f1, f2, f3]
  rfl

theorem parse_xml_srtiDoc_vo2_bad (b : Boxes) (ts v1 v2 ph v3 hr : String)
    (h1 : pyFloat v1 = none) :
    parse_xml b (srtiDoc ts v1 v2 ph v3 hr) =
      ({ b with
          time := Content.str ts, vo2 := Content.str "" },
       Outcome.exn (floatErrMsg v1)) := by
  have f1 : floatOf (findtext (srtiElem ts v1 v2 ph v3 hr) "VO2") =
      Except.error (floatErrMsg v1) := by
    show floatOf (some v1) = Except.error (floatErrMsg v1)
    exact floatOf_of_pyFloat_none v1 h1
  rw [parse_xml, find_srtiDoc]
  dsimp only
  rw [f1]
  rfl

theorem parse_xml_srtiDoc_vco2_bad (b : Boxes) (ts v1 v2 ph v3 hr : String) (q1 : ℚ)
    (h1 : pyFloat v1 = some q1) (h2 : pyFloat v2 = none) :
    parse_xml b (srtiDoc ts v1 v2 ph v3 hr) =
      ({ b with
          time := Content.str ts, vo2 := Content.num (pyRound1 q1),
          vco2 := Content.str "" },
       Outcome.exn (floatErrMsg v2)) := by
  have f1 : floatOf (findtext (srtiElem ts v1 v2 ph v3 hr) "VO2") = Except.ok q1 := by
    show floatOf (some v1) = Except.ok q1
    exact floatOf_of_pyFloat v1 q1 h1
  have f2 : floatOf (findtext (srtiElem ts v1 v2 ph v3 hr) "VCO2") =
      Except.error (floatErrMsg v2) := by
    show floatOf (some v2) = Except.error (floatErrMsg v2)
    exact floatOf_of_pyFloat_none v2 h2
  rw [parse_xml, find_srtiDoc]
  dsimp only
  rw [f1, f2]
  rfl

theorem parse_xml_srtiDoc_ve_bad (b : Boxes) (ts v1 v2 ph v3 hr : String) (q1 q2 : ℚ)
    (h1 : pyFloat v1 = some q1) (h2 : pyFloat v2 = some q2) (h3 : pyFloat v3 = none) :
    parse_xml b (srtiDoc ts v1 v2 ph v3 hr) =
      ({ b with
          time := Content.str ts, vo2 := Content.num (pyRound1 q1),
          vco2 := Content.num (pyRound1 q2), phase := Content.str ph,
          ve := Content.str "" },
       Outcome.exn (floatErrMsg v3)) := by
  have f1 : floatOf (findtext (srtiElem ts v1 v2 ph v3 hr) "VO2") = Except.ok q1 := by
    show floatOf (some v1) = Except.ok q1
    exact floatOf_of_pyFloat v1 q1 h1
  have f2 : floatOf (findtext (srtiElem ts v1 v2 ph v3 hr) "VCO2") = Except.ok q2 := by
    show floatOf (some v2) = Except.ok q2
    exact floatOf_of_pyFloat v2 q2 h2
  have f3 : floatOf (findtext (srtiElem ts v1 v2 ph v3 hr) "VE") =
      Except.error (floatErrMsg v3) := by
    show floatOf (some v3) = Except.error (floatErrMsg v3)
    exact floatOf_of_pyFloat_none v3 h3
  rw [parse_xml, find_srtiDoc]
  dsimp only
  rw [f1, f2, f3]
  rfl

theorem recvStep_bytes_exn (b : Boxes) (s : String) (x : Xml) (b2 : Boxes) (e : String)
    (hp : fromstring s = Except.ok x) (hx : parse_xml b x = (b2, Outcome.exn e)) :
    recvStep b (SockEv.bytes s) = (b2, some e) := by
  rw [recvStep, hp]
  dsimp only
  rw [hx]

theorem recvStep_bytes_unrec (b : Boxes) (s : String) (x : Xml)
    (hp : fromstring s = Except.ok x) (hx : parse_xml b x = (b, Outcome.unrecognized)) :
    recvStep b (SockEv.bytes s) = (b, none) := by
  rw [recvStep, hp]
  dsimp only
  rw [hx]

theorem recvStep_bytes_parse_error (b : Boxes) (s e : String)
    (hp : fromstring s = Except.error e) :
    recvStep b (SockEv.bytes s) = (b, some e) := by
  rw [recvStep, hp]

theorem runLoop_cons_fatal (b : Boxes) (ev : SockEv) (evs : List SockEv) (b2 : Boxes) (e : String)
    (h : recvStep b ev = (b2, some e)) : runLoop b (ev :: evs) = (b2, some e) := by
  rw [runLoop, h]

theorem runLoop_cons_ok (b : Boxes) (ev : SockEv) (evs : List SockEv) (b2 : Boxes)
    (h : recvStep b ev = (b2, none)) : runLoop b (ev :: evs) = runLoop b2 evs := by
  rw [runLoop, h]

theorem enable_click_eval (b : Boxes) (ack : String) (evs : List SockEv) :
    enable_click b ⟨none, none, SockEv.bytes ack, evs⟩ =
      (match runLoop { b with status := Content.str ack } evs with
       | (b2, some e) => { b2 with status := Content.str e }
       | (b2, none) => b2) := rfl

/-- C3: a SetRealTimeInfo frame with all six fields present and numeric
fields parseable decodes with TimeStamp, PHASE and HR passed through as text
unmodified (HR, an arbitrary string here, is never parsed as a number), and
VO2, VCO2, VE parsed as numbers and rounded to one decimal place; in
particular the spec's example document decodes to timestamp "00:01:23",
vo2 2345.7, vco2 1987.3, phase "EX", ve 45.7, hr "142". -/
theorem C3_decode_fields :
    (∀ (b : Boxes) (ts v1 v2 ph v3 hrs : String) (q1 q2 q3 : ℚ),
      pyFloat v1 = some q1 → pyFloat v2 = some q2 → pyFloat v3 = some q3 →
      parse_xml b (srtiDoc ts v1 v2 ph v3 hrs) =
        ({ b with
            time := Content.str ts, vo2 := Content.num (pyRound1 q1),
            vco2 := Content.num (pyRound1 q2), phase := Content.str ph,
            ve := Content.num (pyRound1 q3), hr := Content.str hrs }, Outcome.decoded)) ∧
    parse_xml boxes0 (srtiDoc "00:01:23" "2345.678" "1987.321" "EX" "45.6789" "142") =
      ({ boxes0 with
          time := Content.str "00:01:23", vo2 := Content.num (mkRat 23457 10),
          vco2 := Content.num (mkRat 19873 10), phase := Content.str "EX",
          ve := Content.num (mkRat 457 10), hr := Content.str "142" }, Outcome.decoded) := by
  constructor
  · intro b ts v1 v2 ph v3 hrs q1 q2 q3 h1 h2 h3
    exact parse_xml_srtiDoc_ok b ts v1 v2 ph v3 hrs q1 q2 q3 h1 h2 h3
  · decide

/-- Witness for C3 at a concrete frame, with a non-numeric HR text passed
through untouched. -/
theorem C3_witness :
    parse_xml boxes0 (srtiDoc "t0" "1.25" "2.5" "REST" "3.75" "n/a") =
      ({ boxes0 with
          time := Content.str "t0", vo2 := Content.num (mkRat 6 5),
          vco2 := Content.num (mkRat 5 2), phase := Content.str "REST",
          ve := Content.num (mkRat 19 5), hr := Content.str "n/a" }, Outcome.decoded) :=
  C3_decode_fields.1 boxes0 "t0" "1.25" "2.5" "REST" "3.75" "n/a"
    (mkRat 5 4) (mkRat 5 2) (mkRat 15 4) (by decide) (by decide) (by decide)

/-- C9: the six fields are written in source order TimeStamp, VO2, VCO2,
PHASE, VE, HR and the write is not atomic: when a numeric field's text fails
to parse, every field before it in that order already holds the new frame's
value while every field after it keeps its previous content (the failing
field's box itself has just been cleared by the delete that precedes the
failed insert). -/
theorem C9_partial_update :
    ∀ (b : Boxes) (ts v1 v2 ph v3 hrs : String),
      (pyFloat v1 = none →
        parse_xml b (srtiDoc ts v1 v2 ph v3 hrs) =
          ({ b with
              time := Content.str ts, vo2 := Content.str "" },
           Outcome.exn (floatErrMsg v1))) ∧
      (∀ q1 : ℚ, pyFloat v1 = some q1 → pyFloat v2 = none →
        parse_xml b (srtiDoc ts v1 v2 ph v3 hrs) =
          ({ b with
              time := Content.str ts, vo2 := Content.num (pyRound1 q1),
              vco2 := Content.str "" },
           Outcome.exn (floatErrMsg v2))) ∧
      (∀ q1 q2 : ℚ, pyFloat v1 = some q1 → pyFloat v2 = some q2 → pyFloat v3 = none →
        parse_xml b (srtiDoc ts v1 v2 ph v3 hrs) =
          ({ b with
              time := Content.str ts, vo2 := Content.num (pyRound1 q1),
              vco2 := Content.num (pyRound1 q2), phase := Content.str ph,
              ve := Content.str "" },
           Outcome.exn (floatErrMsg v3))) := by
  intro b ts v1 v2 ph v3 hrs
  refine ⟨fun h1 => ?_, fun q1 h1 h2 => ?_, fun q1 q2 h1 h2 h3 => ?_⟩
  · exact parse_xml_srtiDoc_vo2_bad b ts v1 v2 ph v3 hrs h1
  · exact parse_xml_srtiDoc_vco2_bad b ts v1 v2 ph v3 hrs q1 h1 h2
  · exact parse_xml_srtiDoc_ve_bad b ts v1 v2 ph v3 hrs q1 q2 h1 h2 h3

/-- Witness for C9: a frame whose VCO2 text is unparseable, decoded over a
state holding earlier telemetry.  TimeStamp and VO2 carry the new frame's
values, VCO2 has been cleared, and PHASE, VE, HR keep the old contents. -/
theorem C9_witness :
    parse_xml
      { time := Content.str "09:59:59", vo2 := Content.num (mkRat 21 10),
        vco2 := Content.num (mkRat 19 10), phase := Content.str "REST",
        ve := Content.num (mkRat 3 2), hr := Content.str "88",
        status := Content.str "st" }
      (srtiDoc "10:00:00" "4.0" "oops" "EX" "5.0" "91") =
      ({ time := Content.str "10:00:00", vo2 := Content.num (mkRat 4 1),
         vco2 := Content.str "", phase := Content.str "REST",
         ve := Content.num (mkRat 3 2), hr := Content.str "88",
         status := Content.str "st" },
       Outcome.exn (floatErrMsg "oops")) :=
  (C9_partial_update
      { time := Content.str "09:59:59", vo2 := Content.num (mkRat 21 10),
        vco2 := Content.num (mkRat 19 10), phase := Content.str "REST",
        ve := Content.num (mkRat 3 2), hr := Content.str "88",
        status := Content.str "st" }
      "10:00:00" "4.0" "oops" "EX" "5.0" "91").2.1 (mkRat 4 1) (by decide) (by decide)


/-- C2 counterexample: a frame whose VO2 text is "abc" followed by a fully
valid frame.  The conversion error ends the receive loop, so the next valid
frame is never decoded: afterwards the VO2 box still holds the empty string
left by the failed iteration and the loop has terminated with the ValueError,
refuting the claim that the condition is per-frame and non-fatal and that the
next valid frame is still decoded. -/
theorem C2_counterexample :
    runLoop boxes0 [SockEv.bytes frameBadVO2, SockEv.bytes frameGood] =
      ({ boxes0 with time := Content.str "00:00:01", vo2 := Content.str "" },
       some (floatErrMsg "abc")) := by
  decide

/-- C2 amended: a numeric field that fails to parse as a float raises a
ValueError inside `parse_xml`; the session's single handler catches it (the
process does not crash and the error text is shown in the status box), but
the receive loop terminates with that exception, so the frame's error is
fatal to the session and no later frame - in particular the next valid
one - is decoded. -/
theorem C2_amended :
    ∀ (b : Boxes) (evs : List SockEv) (s ts v1 v2 ph v3 hrs : String),
      fromstring s = Except.ok (srtiDoc ts v1 v2 ph v3 hrs) →
      pyFloat v1 = none →
      runLoop b (SockEv.bytes s :: evs) =
        ({ b with time := Content.str ts, vo2 := Content.str "" }, some (floatErrMsg v1)) ∧
      ∀ ack : String,
        enable_click b ⟨none, none, SockEv.bytes ack, SockEv.bytes s :: evs⟩ =
          { b with
              time := Content.str ts, vo2 := Content.str "",
              status := Content.str (floatErrMsg v1) } := by
  intro b evs s ts v1 v2 ph v3 hrs hp h1
  have hx := parse_xml_srtiDoc_vo2_bad b ts v1 v2 ph v3 hrs h1
  have hstep := recvStep_bytes_exn b s _ _ _ hp hx
  refine ⟨runLoop_cons_fatal b _ evs _ _ hstep, fun ack => ?_⟩
  have hx2 := parse_xml_srtiDoc_vo2_bad { b with status := Content.str ack } ts v1 v2 ph v3 hrs h1
  have hstep2 := recvStep_bytes_exn _ s _ _ _ hp hx2
  have hloop2 := runLoop_cons_fatal _ _ evs _ _ hstep2
  rw [enable_click_eval, hloop2]

/-- Witness for C2's amended statement at the concrete bad frame. -/
theorem C2_witness :
    runLoop boxes0 (SockEv.bytes frameBadVO2 :: [SockEv.bytes frameGood]) =
      ({ boxes0 with time := Content.str "00:00:01", vo2 := Content.str "" },
       some (floatErrMsg "abc")) ∧
    enable_click boxes0 ⟨none, none, SockEv.bytes "ACK", SockEv.bytes frameBadVO2 :: [SockEv.bytes frameGood]⟩ =
      { boxes0 with
          time := Content.str "00:00:01", vo2 := Content.str "",
          status := Content.str (floatErrMsg "abc") } := by
  have h := C2_amended boxes0 [SockEv.bytes frameGood] frameBadVO2
    "00:00:01" "abc" "1.0" "EX" "2.0" "99" (by rfl) (by decide)
  exact ⟨h.1, h.2 "ACK"⟩

/-- C4: a frame containing no SetRealTimeInfo element anywhere in its tree is
skipped: decoding takes the unrecognized branch, the widget state is left
exactly as it was, no exception is raised, and the receive loop carries on
with the remaining frames. -/
theorem C4_unrecognized_skip :
    ∀ (b : Boxes) (x : Xml), ¬ OccursIn "SetRealTimeInfo" x →
      parse_xml b x = (b, Outcome.unrecognized) ∧
      ∀ (s : String) (evs : List SockEv), fromstring s = Except.ok x →
        runLoop b (SockEv.bytes s :: evs) = runLoop b evs := by
  intro b x h
  have hfind : find_SetRealTimeInfo x = none := by
    cases x with
    | elem t tx cs =>
      rw [find_SetRealTimeInfo]
      show findDesc "SetRealTimeInfo" cs = none
      exact findDesc_none "SetRealTimeInfo" cs
        (fun c hm ho => h (OccursIn.via_child t tx cs c hm ho))
  have hparse : parse_xml b x = (b, Outcome.unrecognized) := by rw [parse_xml, hfind]
  exact ⟨hparse, fun s evs hs =>
    runLoop_cons_ok b _ evs b (recvStep_bytes_unrec b s x hs hparse)⟩

/-- Witness for C4: an acknowledgement-style document with no SetRealTimeInfo
anywhere leaves the state unchanged and the loop running. -/
theorem C4_witness :
    parse_xml boxes0 (Xml.elem "OmniaXB" none (XmlList.ofList [leaf "Ack" "ok"])) =
      (boxes0, Outcome.unrecognized) ∧
    runLoop boxes0 [SockEv.bytes "<OmniaXB><Ack>ok</Ack></OmniaXB>"] = runLoop boxes0 [] := by
  have hno : ¬ OccursIn "SetRealTimeInfo" (Xml.elem "OmniaXB" none (XmlList.ofList [leaf "Ack" "ok"])) := by
    intro h
    cases h with
    | here _ _ _ he => exact absurd he (by decide)
    | via_child _ _ _ c hm ho =>
      cases hm with
      | head _ =>
        cases ho with
        | here _ _ _ he => exact absurd he (by decide)
        | via_child _ _ _ c2 hm2 ho2 => cases hm2
      | tail _ _ hm2 => cases hm2
  have h := C4_unrecognized_skip boxes0 (Xml.elem "OmniaXB" none (XmlList.ofList [leaf "Ack" "ok"])) hno
  exact ⟨h.1, h.2 "<OmniaXB><Ack>ok</Ack></OmniaXB>" [] (by rfl)⟩


/-- C1 evaluated on the code: the receive loop parses each recv chunk as one
complete document, so the same bytes produce different results under
different splits.  Delivered whole, the document is parsed and the loop
continues; split mid-text, the first partial chunk raises a ParseError that
terminates the session; two complete documents coalesced into one chunk raise
a junk-after-document error instead of yielding two frames. -/
theorem C1_code_eval :
    runLoop boxes0 [SockEv.bytes "<OmniaXB><a>1</a></OmniaXB>"] = (boxes0, none) ∧
    runLoop boxes0 [SockEv.bytes "<OmniaXB><a>1", SockEv.bytes "</a></OmniaXB>"] =
      (boxes0, some "no element found") ∧
    runLoop boxes0 [SockEv.bytes ("<OmniaXB><a>1</a></OmniaXB>" ++ "<OmniaXB><a>2</a></OmniaXB>")] =
      (boxes0, some "junk after document element") := by
  exact ⟨by decide, by decide, by decide⟩

/-- C5 counterexample: fed a stream whose bytes never form a balanced
document, the session does not accumulate them toward a safety ceiling: it
terminates at the first chunk (11 bytes) with an XML parse error, and no
FrameTooLarge condition exists anywhere in the program. -/
theorem C5_counterexample :
    runLoop boxes0 [SockEv.bytes "<OmniaXB><x", SockEv.bytes "yyyy"] =
      (boxes0, some "unclosed token") := by
  decide

/-- C5 amended: the code never buffers bytes across reads; every recv chunk
is parsed on its own, so a chunk that is not a complete document makes
fromstring raise and the session terminate immediately, with the widget
state untouched and all later chunks ignored.  Memory therefore cannot grow
without bound, but there is no reassembly buffer, no configurable ceiling and
no FrameTooLarge condition. -/
theorem C5_amended :
    ∀ (b : Boxes) (s : String) (evs : List SockEv) (e : String),
      fromstring s = Except.error e →
      runLoop b (SockEv.bytes s :: evs) = (b, some e) := by
  intro b s evs e hp
  exact runLoop_cons_fatal b _ evs b e (recvStep_bytes_parse_error b s e hp)

/-- Witness for C5's amended statement: a never-balancing first chunk kills
the session before any further chunk is read. -/
theorem C5_witness :
    runLoop boxes0 (SockEv.bytes "<Omnia" :: [SockEv.bytes "XB><y>", SockEv.bytes "zzz"]) =
      (boxes0, some "unclosed token") :=
  C5_amended boxes0 "<Omnia" [SockEv.bytes "XB><y>", SockEv.bytes "zzz"] "unclosed token" (by rfl)

/-- C6 counterexample: a clean peer close (zero-length read) does not reach a
distinguished, non-error Closed state: the empty chunk is fed to the XML
parser, which raises, and the session ends through exactly the same
exception path as a socket read error, with an error message displayed. -/
theorem C6_counterexample :
    runLoop boxes0 [SockEv.bytes ""] = (boxes0, some "no element found") ∧
    runLoop boxes0 [SockEv.err "read error"] = (boxes0, some "read error") := by
  exact ⟨by decide, by decide⟩

/-- C6 amended: on a zero-length read the code parses the empty byte string,
raising a ParseError; the session terminates through the same handler as a
socket read error and the exception text is displayed in the status box, so a
clean close is reported as an error and is not distinguished from
SocketReadError by any state. -/
theorem C6_amended :
    ∀ (b : Boxes) (evs : List SockEv) (m ack : String),
      runLoop b (SockEv.bytes "" :: evs) = (b, some "no element found") ∧
      runLoop b (SockEv.err m :: evs) = (b, some m) ∧
      enable_click b ⟨none, none, SockEv.bytes ack, SockEv.bytes "" :: evs⟩ =
        { b with status := Content.str "no element found" } := by
  intro b evs m ack
  have h1 : recvStep b (SockEv.bytes "") = (b, some "no element found") :=
    recvStep_bytes_parse_error b "" "no element found" (by rfl)
  refine ⟨runLoop_cons_fatal b _ evs b _ h1, runLoop_cons_fatal b _ evs b m rfl, ?_⟩
  have h2 : recvStep { b with status := Content.str ack } (SockEv.bytes "") =
      ({ b with status := Content.str ack }, some "no element found") :=
    recvStep_bytes_parse_error _ "" "no element found" (by rfl)
  rw [enable_click_eval, runLoop_cons_fatal _ _ evs _ _ h2]

/-- Witness for C6's amended statement at the initial widget state. -/
theorem C6_witness :
    runLoop boxes0 [SockEv.bytes ""] = (boxes0, some "no element found") ∧
    runLoop boxes0 [SockEv.err "timed out"] = (boxes0, some "timed out") ∧
    enable_click boxes0 ⟨none, none, SockEv.bytes "ACK", [SockEv.bytes ""]⟩ =
      { boxes0 with status := Content.str "no element found" } :=
  C6_amended boxes0 [] "timed out" "ACK"

/-- C7: once the receive loop has ended (every termination of this session is
the loop ending, whether on a clean close or on an error), no later socket
event is processed: the widget state and the reported outcome are exactly
those at the moment of termination, so no further telemetry or warning is
ever surfaced to the user. -/
theorem C7_terminal_final :
    ∀ (b : Boxes) (pre post : List SockEv) (b2 : Boxes) (e : String),
      runLoop b pre = (b2, some e) → runLoop b (pre ++ post) = (b2, some e) :=
  fun b pre post b2 e h => runLoop_fatal_append post pre b b2 e h

/-- Witness for C7: after a read error, a following well-formed telemetry
frame is never decoded. -/
theorem C7_witness :
    runLoop boxes0 ([SockEv.err "boom"] ++ [SockEv.bytes frameGood]) = (boxes0, some "boom") :=
  C7_terminal_final boxes0 [SockEv.err "boom"] [SockEv.bytes frameGood] boxes0 "boom" (by decide)

/-- C8: the enable-real-time command payload is a pure constant: it is the
UTF-8 encoding of exactly the handshake document (all ASCII, hence the code
units are the characters themselves), and those bytes parse as the document
OmniaXB > System > EnableRealTimeInformation > Enabled = 1. -/
theorem C8_command_bytes :
    byte_message =
      encode_utf8 "<OmniaXB><System><EnableRealTimeInformation><Enabled>1</Enabled></EnableRealTimeInformation></System></OmniaXB>" ∧
    byte_message =
      "<OmniaXB><System><EnableRealTimeInformation><Enabled>1</Enabled></EnableRealTimeInformation></System></OmniaXB>".data.map Char.toNat ∧
    fromstring message =
      Except.ok (Xml.elem "OmniaXB" none (XmlList.ofList
        [Xml.elem "System" none (XmlList.ofList
          [Xml.elem "EnableRealTimeInformation" none (XmlList.ofList
            [leaf "Enabled" "1"])])])) := by
  exact ⟨rfl, by decide, by rfl⟩

/-- C10: every failure mode of the session routine - connect failure, send
failure, a read failure, or a decode/parse exception escaping an iteration -
is caught by the single enclosing handler, which writes the exception text
into the status box; the routine then returns, the receive loop having ended
permanently: whatever the trace holds after the first failure is never
processed and no reconnection is attempted.  The model returns a plain widget
state in every case, mirroring that no exception propagates to the caller. -/
theorem C10_exceptions_contained :
    ∀ (b : Boxes) (t : NetTrace),
      (∀ e, t.connectErr = some e → enable_click b t = { b with status := Content.str e }) ∧
      (∀ e, t.connectErr = none → t.sendErr = some e →
        enable_click b t = { b with status := Content.str e }) ∧
      (∀ e, t.connectErr = none → t.sendErr = none → t.firstRecv = SockEv.err e →
        enable_click b t = { b with status := Content.str e }) ∧
      (∀ (ack : String) (pre : List SockEv) (ev : SockEv) (post : List SockEv)
          (b2 : Boxes) (e : String),
        t.connectErr = none → t.sendErr = none → t.firstRecv = SockEv.bytes ack →
        t.events = pre ++ ev :: post →
        runLoop { b with status := Content.str ack } pre = (b2, none) →
        recvStep b2 ev = ((recvStep b2 ev).1, some e) →
        enable_click b t = { (recvStep b2 ev).1 with status := Content.str e }) := by
  intro b t
  refine ⟨?_, ?_, ?_, ?_⟩
  · intro e hc
    simp only [enable_click, hc]
  · intro e hc hs
    simp only [enable_click, hc, hs]
  · intro e hc hs hf
    simp only [enable_click, hc, hs, hf]
  · intro ack pre ev post b2 e hc hs hf hev hpre hstep
    have hloop : runLoop { b with status := Content.str ack } (pre ++ ev :: post) =
        ((recvStep b2 ev).1, some e) := by
      rw [runLoop_ok_append (ev :: post) pre _ b2 hpre]
      exact runLoop_cons_fatal b2 ev post _ e hstep
    simp only [enable_click, hc, hs, hf, hev, hloop]

/-- Witness for C10 at the loop-failure mode: a valid frame is processed, the
next read raises, the error is displayed and the frame queued after it is
never touched. -/
theorem C10_witness :
    enable_click boxes0
      ⟨none, none, SockEv.bytes "ACK",
       [SockEv.bytes "<OmniaXB><Ack>1</Ack></OmniaXB>", SockEv.err "connection reset",
        SockEv.bytes frameGood]⟩ =
      { boxes0 with status := Content.str "connection reset" } := by
  have h := (C10_exceptions_contained boxes0
      ⟨none, none, SockEv.bytes "ACK",
       [SockEv.bytes "<OmniaXB><Ack>1</Ack></OmniaXB>", SockEv.err "connection reset",
        SockEv.bytes frameGood]⟩).2.2.2
      "ACK" [SockEv.bytes "<OmniaXB><Ack>1</Ack></OmniaXB>"] (SockEv.err "connection reset")
      [SockEv.bytes frameGood] { boxes0 with status := Content.str "ACK" } "connection reset"
      rfl rfl rfl rfl (by decide) (by decide)
  exact h
